import Mathlib

/-!
# Verification of `dataprocessor.py` (endolith/frontend)

Shallow embedding of `src/dataprocessor.py` — a minimal framework of
`DataProcessor` (dual per-frame / per-sequence transforms), `Source`
(zero-input generators) and `Pipeline` (lazy chains of stages) — together
with theorems settling the specification claims about it.

Frames are opaque; we model them by a type variable `α` (or `β` for output
frames).  A finite materialised sequence is a `List`; a lazily pulled
Python generator is modelled by `PullStream` (the outcome of each
successive `next()` call).  Python exceptions are modelled by the
`PyError` type; the constructors `configurationError` and
`starvationError` represent error classes named by the specification that
do not occur anywhere in the source — they are part of the error universe
so that spec claims about them can be stated and compared with what the
code actually raises.
-/

/-- The universe of exception classes relevant to `dataprocessor.py`.
`stopIteration`, `indexError`, `attributeError`, `typeError` and
`maxRecursion` (Python's `RuntimeError: maximum recursion depth exceeded`)
are what the source can actually raise; `configurationError` and
`starvationError` are error classes the specification talks about, which
never occur in the source. -/
inductive PyError where
  | stopIteration
  | indexError
  | attributeError
  | typeError
  | maxRecursion
  | configurationError
  | starvationError
deriving DecidableEq, Repr

/-- A pulled view of a Python generator/iterator: `s n` is the value
produced by the `(n+1)`-st call of `next()`, with `none` meaning that call
raises `StopIteration`.  Only the indices actually pulled are ever
evaluated by the embedded code. -/
def PullStream (β : Type) : Type := Nat → Option β

/-- View a finite materialised list as a pull stream (index lookup). -/
def listToStream (l : List β) : PullStream β := fun n => l.get? n

/-- Embedding of `gen.next()`: pull one element from a generator; an exhausted
generator raises `StopIteration`. -/
def genNext (s : PullStream β) : Except PyError β :=
  match s 0 with
  | none => .error .stopIteration
  | some y => .ok y

/-- Embedding of the default `DataProcessor.process_frame`
(`dataprocessor.py` line 36): `return self.process_sequence([frame]).next()`.
`ps` is the subclass's overriding `process_sequence`, whose produced
generator is observed as a `PullStream`. -/
def processFrameDefault (ps : List α → PullStream β) (f : α) : Except PyError β :=
  genNext (ps [f])

/-- Embedding of the default `DataProcessor.process_sequence`
(`dataprocessor.py` lines 43-44): `for x in frames: yield
self.process_frame(x)`, materialised over a finite input list.  `pf` is
the subclass's overriding `process_frame`. -/
def processSequenceDefault (pf : α → β) : List α → List β
  | [] => []
  | x :: xs => pf x :: processSequenceDefault pf xs

/-- C1: for a Transform overriding `process_frame` and relying on the
default `process_sequence`, the output has the same length as the input
and `output[i] = process_frame(input[i])` for every index, in input
order. -/
theorem C1_processSequenceDefault_maps_in_order (pf : α → β) (l : List α) :
    (processSequenceDefault pf l).length = l.length ∧
    ∀ i : Nat, (processSequenceDefault pf l).get? i = (l.get? i).map pf := by
  induction l with
  | nil => exact ⟨rfl, fun i => by cases i <;> rfl⟩
  | cons x xs ih =>
    refine ⟨by simp [processSequenceDefault, ih.1], fun i => ?_⟩
    cases i with
    | zero => rfl
    | succ j => simpa [processSequenceDefault] using ih.2 j

/-- C2: for a Transform overriding `process_sequence` and relying on the
default `process_frame`, if `process_sequence([f])` yields exactly one
element `y`, then `process_frame(f)` returns that sole element. -/
theorem C2_processFrameDefault_singleton (ps : List α → PullStream β) (f : α)
    (y : β) (h : ps [f] = listToStream [y]) :
    processFrameDefault ps f = .ok y := by
  simp [processFrameDefault, genNext, h, listToStream]

/-- Witness for C2 at a concrete transform: `process_sequence` that maps
`(+1)` over its input; `process_frame 5` returns `6`. -/
theorem C2_witness :
    (fun l => listToStream (l.map (· + 1))) [5] = listToStream [6] ∧
    processFrameDefault (fun l => listToStream (l.map (· + 1))) 5 = .ok 6 :=
  ⟨rfl, C2_processFrameDefault_singleton (fun l => listToStream (l.map (· + 1))) 5 6 rfl⟩

/-- C10: when the overriding `process_sequence` yields at least two
elements on the singleton input `[f]`, the default `process_frame`
returns the first yielded element without error, and its result depends
only on the first element of the produced stream — the surplus elements
are never pulled (any stream agreeing at pull index 0 gives the same
result), and no exception is raised. -/
theorem C10_processFrameDefault_surplus_discarded
    (ps : List α → PullStream β) (f : α) (y z : β)
    (h0 : ps [f] 0 = some y) (_h1 : ps [f] 1 = some z) :
    processFrameDefault ps f = .ok y ∧
    ∀ ps' : List α → PullStream β, ps' [f] 0 = ps [f] 0 →
      processFrameDefault ps' f = processFrameDefault ps f := by
  refine ⟨by simp [processFrameDefault, genNext, h0], fun ps' h => ?_⟩
  simp [processFrameDefault, genNext, h]

/-- Witness for C10: a `process_sequence` that yields `7` then `8` on the
singleton `[3]`; `process_frame 3` returns `7`. -/
theorem C10_witness :
    ((fun _ => listToStream [7, 8]) : List Nat → PullStream Nat) [3] 0 = some 7 ∧
    (fun _ => listToStream [7, 8] : List Nat → PullStream Nat) [3] 1 = some 8 ∧
    processFrameDefault (fun _ => listToStream [7, 8]) 3 = .ok 7 :=
  ⟨rfl, rfl,
    (C10_processFrameDefault_surplus_discarded (fun _ => listToStream [7, 8]) 3 7 8
      rfl rfl).1⟩

/-- Counterexample to C5 as stated: a `process_sequence` override that
yields zero elements makes the default `process_frame` raise
`StopIteration` (the `.next()` of an exhausted generator), not a
`StarvationError` — no such error class exists in the source. -/
theorem C5_counterexample :
    processFrameDefault ((fun _ => listToStream []) : List Nat → PullStream Nat) 0
      = .error .stopIteration ∧
    (Except.error PyError.stopIteration : Except PyError Nat)
      ≠ .error .starvationError :=
  ⟨rfl, fun h => PyError.noConfusion (Except.error.inj h)⟩

/-- C5 amended: if the overriding `process_sequence` yields zero elements
for the singleton input `[f]`, the default `process_frame` fails — but
with `StopIteration` (from `.next()` on the exhausted generator), since
the source defines no `StarvationError`. -/
theorem C5_processFrameDefault_empty_stopIteration
    (ps : List α → PullStream β) (f : α) (h : ∀ n, ps [f] n = none) :
    processFrameDefault ps f = .error .stopIteration := by
  simp [processFrameDefault, genNext, h 0]

/-- Witness for C5 amended: the always-empty `process_sequence` makes
`process_frame 0` raise `StopIteration`. -/
theorem C5_witness :
    (∀ n, ((fun _ => listToStream []) : List Nat → PullStream Nat) [0] n = none) ∧
    processFrameDefault ((fun _ => listToStream []) : List Nat → PullStream Nat) 0
      = .error .stopIteration :=
  ⟨fun n => by cases n <;> rfl,
    C5_processFrameDefault_empty_stopIteration (fun _ => listToStream []) 0
      (fun n => by cases n <;> rfl)⟩

/-!
## The neither-overridden case (C4)

If a subclass overrides neither method, the two defaults call each other:
`process_frame(f)` forces the first element of the generator
`process_sequence([f])`, whose first yield computes `process_frame(f)`
again.  We embed this mutual recursion with an explicit `fuel` bound
standing for Python's recursion-depth limit: exhausting the fuel is
Python's `RuntimeError: maximum recursion depth exceeded`.
-/

mutual
/-- Default `process_frame` when `process_sequence` is also the default:
`self.process_sequence([frame]).next()`, i.e. force the first element of
the default generator on `[frame]`. -/
def processFrameNeither (fuel : Nat) (f : α) : Except PyError α :=
  match fuel with
  | 0 => .error .maxRecursion
  | n + 1 =>
    match processSequenceNeitherFirst n f with
    | .error e => .error e
    | .ok none => .error .stopIteration
    | .ok (some y) => .ok y

/-- The first `next()` on the default `process_sequence` generator for the
singleton `[f]`: runs the loop body once, which calls `process_frame(f)`;
`ok none` would mean the generator is exhausted without yielding. -/
def processSequenceNeitherFirst (fuel : Nat) (f : α) : Except PyError (Option α) :=
  match fuel with
  | 0 => .error .maxRecursion
  | n + 1 =>
    match processFrameNeither n f with
    | .error e => .error e
    | .ok y => .ok (some y)
end

/-- Counterexample to C4 as stated: with neither method overridden,
invoking `process_frame` exhausts any recursion budget and dies with
Python's maximum-recursion `RuntimeError`, not a `ConfigurationError` —
no such error class or detection exists in the source. -/
theorem C4_counterexample :
    processFrameNeither 50 (0 : Nat) = .error .maxRecursion ∧
    (Except.error PyError.maxRecursion : Except PyError Nat)
      ≠ .error .configurationError :=
  ⟨rfl, fun h => PyError.noConfusion (Except.error.inj h)⟩

/-- C4 amended: with neither method overridden, invoking either operation
recurses mutually forever — for every recursion budget, both
`process_frame` and the first pull of `process_sequence` abort with the
maximum-recursion error, and no `ConfigurationError` is ever raised. -/
theorem C4_neither_overridden_diverges (fuel : Nat) (f : α) :
    processFrameNeither fuel f = .error .maxRecursion ∧
    processSequenceNeitherFirst fuel f = .error .maxRecursion := by
  induction fuel with
  | zero => exact ⟨rfl, rfl⟩
  | succ n ih =>
    constructor
    · simp [processFrameNeither, ih.2]
    · simp [processSequenceNeitherFirst, ih.1]

/-!
## Source and Pipeline

A pipeline stage (`Pipeline.dps` element) is one of:
* a `Source` (`dataprocessor.py` lines 47-76): an iterator yielding a
  sequence of frames, with no `process_sequence` method — modelled by the
  finite list of frames it produces;
* a plain `DataProcessor` with a `process_sequence` method that lazily
  iterates its input and produces a sequence — modelled, over finite
  materialised sequences, by a function `List α → List α` (the default
  derivation of `process_sequence` from `process_frame`, lines 43-44, is
  of this shape, as is any override that iterates its input before
  emitting);
* a nested `Pipeline` (lines 79-127) with its own stage list.

The value bound to the local variable `gen` inside
`Pipeline.process_sequence` is modelled by `GenVal`, which distinguishes
how draining it behaves: an iterable yielding a known finite sequence, a
generator/iterable whose first pull raises an exception (laziness defers
the error to pull time), or a plain non-iterable `DataProcessor` object
(draining it raises `TypeError`).
-/

/-- A stage of a `Pipeline` (an element of `Pipeline.dps`). -/
inductive Stage (α : Type) where
  | source (frames : List α)
  | transform (ps : List α → List α)
  | pipe (dps : List (Stage α))

/-- The value of the `gen` variable threaded through
`Pipeline.process_sequence`. -/
inductive GenVal (α : Type) where
  | seq (l : List α)
  | lazyFail (e : PyError)
  | notIter
deriving DecidableEq

/-- Embedding of `dp.process_sequence(gen)` for a Transform `dp` (default or overriding
implementation that lazily iterates its input, as `dataprocessor.py`
lines 43-44 do): mapping the sequence-level function over an iterable
input; over an input whose iteration fails, the output generator fails at
its first pull with the same error; over a non-iterable object, the
output generator raises `TypeError` at its first pull. -/
def applyTransform (ps : List α → List α) : GenVal α → GenVal α
  | .seq l => .seq (ps l)
  | .lazyFail e => .lazyFail e
  | .notIter => .lazyFail .typeError

mutual
/-- Embedding of `d.process_sequence(g)` where `d` is a pipeline stage and `g` the
upstream value: a `Source` has no `process_sequence` attribute
(`AttributeError`, raised eagerly at the attribute lookup); a Transform
returns its lazy output; a nested `Pipeline` runs `Pipeline.process_sequence`
(lines 109-127) with `frames = g`. -/
def stageProcessSequence : Stage α → GenVal α → Except PyError (GenVal α)
  | .source _, _ => .error .attributeError
  | .transform ps, g => .ok (applyTransform ps g)
  | .pipe inner, g => pipelineSeqSome inner g

/-- Embedding of `Pipeline.process_sequence(frames)` with `frames` supplied: line 122
`gen = self.dps[0].process_sequence(frames)` (line 118's `self.dps[0]`
raises `IndexError` on an empty stage list) followed by the chaining loop
of lines 124-125. -/
def pipelineSeqSome : List (Stage α) → GenVal α → Except PyError (GenVal α)
  | [], _ => .error .indexError
  | d0 :: rest, g =>
    match stageProcessSequence d0 g with
    | .error e => .error e
    | .ok g1 => chainStages g1 rest

/-- The loop of lines 124-125: `for dp in self.dps[1:]: gen =
dp.process_sequence(gen)`. -/
def chainStages : GenVal α → List (Stage α) → Except PyError (GenVal α)
  | g, [] => .ok g
  | g, d :: rest =>
    match stageProcessSequence d g with
    | .error e => .error e
    | .ok g1 => chainStages g1 rest

/-- Embedding of `Pipeline.process_sequence()` with `frames` omitted: lines 117-120
(`gen = self.dps[0]`, turned into its iterator when the first stage is a
`Source`) followed by the chaining loop. -/
def pipelineSeqNone : List (Stage α) → Except PyError (GenVal α)
  | [] => .error .indexError
  | d0 :: rest => chainStages (headGenNone d0) rest

/-- The value of `gen` after lines 118-120 when `frames` is omitted: a
`Source` first stage is replaced by its iterator; a plain Transform is
left as a non-iterable object; a nested `Pipeline` object is iterable via
`Pipeline.__iter__` (line 107), which calls `process_sequence()` lazily —
any exception that call raises surfaces at the first pull. -/
def headGenNone : Stage α → GenVal α
  | .source l => .seq l
  | .transform _ => .notIter
  | .pipe inner =>
    match pipelineSeqNone inner with
    | .error e => .lazyFail e
    | .ok g => g
end

/-- Embedding of `Pipeline.process_sequence(frames)`, lines 109-127. -/
def pipelineProcessSequence (dps : List (Stage α)) (frames : Option (GenVal α)) :
    Except PyError (GenVal α) :=
  match frames with
  | none => pipelineSeqNone dps
  | some g => pipelineSeqSome dps g

/-- Draining a `GenVal` into a materialised list, as the comprehension in
`toarray` (lines 76 and 131) does: a non-iterable object raises
`TypeError`; a generator that fails at its first pull raises its
exception. -/
def drainGen : GenVal α → Except PyError (List α)
  | .seq l => .ok l
  | .lazyFail e => .error e
  | .notIter => .error .typeError

/-- Embedding of `Pipeline.toarray(frames)`, lines 129-131: drain the result of
`process_sequence(frames)` into a dense array. -/
def pipelineToArray (dps : List (Stage α)) (frames : Option (GenVal α)) :
    Except PyError (List α) :=
  match pipelineProcessSequence dps frames with
  | .error e => .error e
  | .ok g => drainGen g

/-- Embedding of `Source.toarray`, lines 74-76: `np.asarray([x for x in self])` — the
comprehension drains the iterator in production order, appending each
produced frame. -/
def toarray (src : List α) : Array α :=
  src.foldl (fun acc x => acc.push x) #[]

/-- A stage that is a plain Transform (has a `process_sequence` method and
is not a `Source` or nested `Pipeline`). -/
def isTransform : Stage α → Prop
  | .transform _ => True
  | _ => False

/-!
## Helper lemmas about the pipeline chaining loop
-/

/-- Unfolding of one step of the chaining loop. -/
lemma chainStages_cons (g : GenVal α) (d : Stage α) (rest : List (Stage α)) :
    chainStages g (d :: rest) =
      match stageProcessSequence d g with
      | .error e => .error e
      | .ok g1 => chainStages g1 rest := rfl

/-- Chaining over a concatenation is chaining over the first part, then
(on success) over the second. -/
lemma chainStages_append (g : GenVal α) (xs ys : List (Stage α)) :
    chainStages g (xs ++ ys) =
      match chainStages g xs with
      | .error e => .error e
      | .ok g1 => chainStages g1 ys := by
  induction xs generalizing g with
  | nil => rfl
  | cons d rest ih =>
    rw [List.cons_append, chainStages_cons, chainStages_cons]
    rcases hd : stageProcessSequence d g with e | g1
    · rfl
    · exact ih g1

/-- On any nonempty stage list, `process_sequence` with supplied frames is
the chaining loop run from the supplied value. -/
lemma pipelineSeqSome_eq_chain (dps : List (Stage α)) (g : GenVal α) (h : dps ≠ []) :
    pipelineSeqSome dps g = chainStages g dps := by
  cases dps with
  | nil => exact absurd rfl h
  | cons d rest => rfl

/-- A nested nonempty Pipeline used as a stage behaves exactly as the
chaining loop over its own stages. -/
lemma stageProcessSequence_pipe (inner : List (Stage α)) (h : inner ≠ []) (g : GenVal α) :
    stageProcessSequence (Stage.pipe inner) g = chainStages g inner := by
  cases inner with
  | nil => exact absurd rfl h
  | cons i0 irest => rfl

/-- Replacing a nested nonempty Pipeline stage by its flattened stage list
does not change the chaining loop's result. -/
lemma chainStages_flatten (inner : List (Stage α)) (h : inner ≠ [])
    (post : List (Stage α)) :
    ∀ (pre : List (Stage α)) (g : GenVal α),
      chainStages g (pre ++ Stage.pipe inner :: post) =
        chainStages g (pre ++ (inner ++ post)) := by
  intro pre
  induction pre with
  | nil =>
    intro g
    rw [List.nil_append, List.nil_append, chainStages_cons,
      stageProcessSequence_pipe inner h g, chainStages_append]
  | cons d ds ih =>
    intro g
    rw [List.cons_append, List.cons_append, chainStages_cons, chainStages_cons]
    rcases hd : stageProcessSequence d g with e | g1
    · rfl
    · exact ih g1

/-- C3: an outer Pipeline containing a nested (nonempty, i.e. valid)
Pipeline as one of its stages produces, for every input sequence, exactly
the same result as the Pipeline obtained by splicing the nested Pipeline's
stage list in its place. -/
theorem C3_nested_pipeline_flattens (inner pre post : List (Stage α))
    (l : List α) (h : inner ≠ []) :
    pipelineProcessSequence (pre ++ Stage.pipe inner :: post) (some (.seq l)) =
      pipelineProcessSequence (pre ++ (inner ++ post)) (some (.seq l)) := by
  have h2 : pre ++ (inner ++ post) ≠ [] := by
    intro hc
    rcases List.append_eq_nil.mp hc with ⟨-, hc2⟩
    exact h (List.append_eq_nil.mp hc2).1
  have h1 : pre ++ Stage.pipe inner :: post ≠ [] := by
    intro hc
    exact List.noConfusion (List.append_eq_nil.mp hc).2
  show pipelineSeqSome _ _ = pipelineSeqSome _ _
  rw [pipelineSeqSome_eq_chain _ _ h1, pipelineSeqSome_eq_chain _ _ h2,
    chainStages_flatten inner h post pre]

/-- Witness for C3: a pipeline `[double]` nested between a `(+1)` stage
and a `(*3)` stage gives the same result as the flattened three-stage
pipeline, on input `[1, 2]`. -/
theorem C3_witness :
    ([Stage.transform (fun l : List Nat => l.map (· * 2))] ≠ ([] : List (Stage Nat))) ∧
    pipelineProcessSequence
        ([Stage.transform (fun l : List Nat => l.map (· + 1))] ++
          Stage.pipe [Stage.transform (fun l : List Nat => l.map (· * 2))] ::
            [Stage.transform (fun l : List Nat => l.map (· * 3))])
        (some (.seq [1, 2])) =
      pipelineProcessSequence
        ([Stage.transform (fun l : List Nat => l.map (· + 1))] ++
          ([Stage.transform (fun l : List Nat => l.map (· * 2))] ++
            [Stage.transform (fun l : List Nat => l.map (· * 3))]))
        (some (.seq [1, 2])) :=
  ⟨by simp,
    C3_nested_pipeline_flattens
      [Stage.transform (fun l : List Nat => l.map (· * 2))]
      [Stage.transform (fun l : List Nat => l.map (· + 1))]
      [Stage.transform (fun l : List Nat => l.map (· * 3))]
      [1, 2] (by simp)⟩

/-- Counterexample to C6 as stated: a Pipeline with an empty stage list is
constructed without complaint (`__init__` merely stores `dps`), and its
first use raises `IndexError` (from `self.dps[0]`), not a
`ConfigurationError` — no such error class exists in the source. -/
theorem C6_counterexample :
    pipelineToArray ([] : List (Stage Nat)) none = .error .indexError ∧
    PyError.indexError ≠ PyError.configurationError :=
  ⟨rfl, by decide⟩

/-- C6 amended: a Pipeline with an empty stage list raises `IndexError`
(not `ConfigurationError`) on first use — any call of `process_sequence`
or `toarray`, with or without supplied frames; construction itself raises
nothing. -/
theorem C6_empty_pipeline_indexError (frames : Option (GenVal α)) :
    pipelineProcessSequence ([] : List (Stage α)) frames = .error .indexError ∧
    pipelineToArray ([] : List (Stage α)) frames = .error .indexError := by
  cases frames <;> exact ⟨rfl, rfl⟩

/-- Chaining a generator that fails at its first pull through
Transform-only stages keeps it failing at its first pull (laziness defers
the error past every stage). -/
lemma chainStages_lazyFail_transforms (e : PyError) (rest : List (Stage α))
    (h : ∀ s ∈ rest, isTransform s) :
    chainStages (GenVal.lazyFail e) rest = .ok (.lazyFail e) := by
  induction rest with
  | nil => rfl
  | cons d rs ih =>
    cases d with
    | transform f =>
      rw [chainStages_cons]
      exact ih fun s hs => h s (List.mem_cons_of_mem _ hs)
    | source l => cases h _ (List.mem_cons_self _ _)
    | pipe inner => cases h _ (List.mem_cons_self _ _)

/-- Counterexample to C7 as stated: a single-stage Pipeline whose first
stage is a plain Transform, invoked with `frames` omitted and drained,
fails with `TypeError` (iterating a non-iterable `DataProcessor` object),
not a `ConfigurationError` — no such error class exists in the source. -/
theorem C7_counterexample :
    pipelineToArray [Stage.transform (id : List Nat → List Nat)] none = .error .typeError ∧
    PyError.typeError ≠ PyError.configurationError :=
  ⟨rfl, by decide⟩

/-- C7 amended: for a Pipeline whose first stage is a plain Transform (not
a Generator) and whose later stages are all Transforms, calling
`process_sequence` with `frames` omitted does not itself raise; the
failure is a `TypeError` (not `ConfigurationError`) and surfaces only at
the first pull of the returned object — here observed by draining via
`toarray`. -/
theorem C7_no_generator_head_typeError (ps : List α → List α)
    (rest : List (Stage α)) (h : ∀ s ∈ rest, isTransform s) :
    pipelineToArray (Stage.transform ps :: rest) none = .error .typeError := by
  have hchain : chainStages (GenVal.notIter) rest = .ok GenVal.notIter ∨
      chainStages (GenVal.notIter) rest = .ok (GenVal.lazyFail .typeError) := by
    cases rest with
    | nil => exact Or.inl rfl
    | cons d rs =>
      cases d with
      | transform f =>
        refine Or.inr ?_
        rw [chainStages_cons]
        exact chainStages_lazyFail_transforms _ rs
          fun s hs => h s (List.mem_cons_of_mem _ hs)
      | source l => cases h _ (List.mem_cons_self _ _)
      | pipe inner => cases h _ (List.mem_cons_self _ _)
  show (match chainStages (GenVal.notIter) rest with
    | .error e => Except.error e
    | .ok g => drainGen g) = .error .typeError
  rcases hchain with hc | hc <;> rw [hc] <;> rfl

/-- Witness for C7: a two-stage all-Transform pipeline with no Generator
head, used without frames and drained, yields `TypeError`. -/
theorem C7_witness :
    (∀ s ∈ [Stage.transform (fun l : List Nat => l.map (· + 1))], isTransform s) ∧
    pipelineToArray
        [Stage.transform (id : List Nat → List Nat),
          Stage.transform (fun l : List Nat => l.map (· + 1))] none
      = .error .typeError :=
  ⟨by intro s hs; simp at hs; subst hs; trivial,
    C7_no_generator_head_typeError id
      [Stage.transform (fun l : List Nat => l.map (· + 1))]
      (by intro s hs; simp at hs; subst hs; trivial)⟩

/-- Chaining into a `Source` stage raises `AttributeError` (a `Source` has
no `process_sequence` method), whatever upstream value reaches it through
any Transform-only prefix. -/
lemma chainStages_source_attributeError (m : List α) (post : List (Stage α)) :
    ∀ (pre : List (Stage α)) (g : GenVal α), (∀ s ∈ pre, isTransform s) →
      chainStages g (pre ++ Stage.source m :: post) = .error .attributeError := by
  intro pre
  induction pre with
  | nil => intro g _; rw [List.nil_append, chainStages_cons]; rfl
  | cons d ds ih =>
    intro g h
    cases d with
    | transform f =>
      rw [List.cons_append, chainStages_cons]
      exact ih _ fun s hs => h s (List.mem_cons_of_mem _ hs)
    | source l => cases h _ (List.mem_cons_self _ _)
    | pipe inner => cases h _ (List.mem_cons_self _ _)

/-- Counterexample to C8 as stated: a Pipeline with a `Source` in second
position raises `AttributeError` (a `Source` object has no
`process_sequence` attribute), not a `ConfigurationError` — no such error
class exists in the source; nothing is raised at construction. -/
theorem C8_counterexample :
    pipelineToArray [Stage.transform (id : List Nat → List Nat), Stage.source [1, 2]] none
      = .error .attributeError ∧
    PyError.attributeError ≠ PyError.configurationError :=
  ⟨rfl, by decide⟩

/-- C8 amended: a Pipeline with a Generator-only stage (a `Source`) at any
position after 0, preceded past the head only by Transform stages, raises
`AttributeError` (not `ConfigurationError`) when `process_sequence()` is
invoked; construction itself raises nothing. -/
theorem C8_generator_after_head_attributeError (d0 : Stage α)
    (pre : List (Stage α)) (m : List α) (post : List (Stage α))
    (h : ∀ s ∈ pre, isTransform s) :
    pipelineProcessSequence (d0 :: (pre ++ Stage.source m :: post)) none
      = .error .attributeError := by
  show chainStages (headGenNone d0) (pre ++ Stage.source m :: post) = _
  exact chainStages_source_attributeError m post pre _ h

/-- Witness for C8: a pipeline whose second stage is a `Source` fails with
`AttributeError` when invoked without frames. -/
theorem C8_witness :
    (∀ s ∈ ([] : List (Stage Nat)), isTransform s) ∧
    pipelineProcessSequence [Stage.source [1, 2, 3], Stage.source [4]] none
      = .error .attributeError :=
  ⟨(fun _ hs => nomatch hs),
    C8_generator_after_head_attributeError (Stage.source [1, 2, 3]) [] [4] []
      (fun _ hs => nomatch hs)⟩

/-- Draining a list-comprehension fold preserves the accumulated prefix
and appends the drained elements in order. -/
lemma toList_foldl_push (src : List α) :
    ∀ acc : Array α, (src.foldl (fun a x => a.push x) acc).toList = acc.toList ++ src := by
  induction src with
  | nil => intro acc; simp
  | cons x xs ih => intro acc; simp [List.foldl, ih]

/-- C9: `toarray()` on a finite `Source` returns a dense array whose
element list is exactly the list of produced frames — so its length (size)
equals the number of frames produced and its `i`-th element is the `i`-th
frame, in production order. -/
theorem C9_source_toarray_order (src : List α) :
    (toarray src).toList = src ∧ (toarray src).size = src.length := by
  have h : (toarray src).toList = src := by
    simpa using toList_foldl_push src #[]
  exact ⟨h, by rw [← Array.length_toList, h]⟩
